import Mathlib

/-
  Verification of the date-aware chart rendering core of simple_plot.py
  (repository lambda-plot).

  The Python source is shallowly embedded: machine behaviour that the
  claims depend on (datetime.strptime for the two fixed formats, the
  DateParser fallback state machine, the x-axis parse loop inside
  generate_graph, WeekdayDateFormatter, the figure construction,
  validate_data, and the storage-key / URL construction from
  lambda_handler and get_url) becomes computable Lean definitions.
  Python exceptions become Except values: ValueError, TypeError and
  KeyError are the constructors of PyErr.  Matplotlib calls are modelled
  as data recorded in a Figure value: plotting records the plotted
  series, set_major_formatter / set_major_locator record the formatter
  and locator objects.  The matplotlib float day-number representation
  (date2num / num2date) is abstracted by an exact wrapper, since the
  code only ever round-trips through it.
-/

namespace SimplePlot

/-- A timezone-naive datetime value, as produced by datetime.strptime. -/
structure DateTime where
  year : Nat
  month : Nat
  day : Nat
  hour : Nat
  minute : Nat
  second : Nat
deriving DecidableEq

/-- Default datetime: strptime fills unparsed fields from 1900-01-01. -/
def dtDefault : DateTime := ⟨1900, 1, 1, 0, 0, 0⟩

/-- Default string used with List.getD in indexed statements. -/
def strDefault : String := ""

/-- Gregorian leap year rule, as used by the datetime module. -/
def isLeapYear (y : Nat) : Bool :=
  (y % 4 == 0 && y % 100 != 0) || y % 400 == 0

/-- Number of days in a month, as validated by the datetime constructor. -/
def daysInMonth (y m : Nat) : Nat :=
  if m = 2 then (if isLeapYear y then 29 else 28)
  else if m = 4 ∨ m = 6 ∨ m = 9 ∨ m = 11 then 30
  else 31

/-- Range validation performed by the datetime constructor
(MINYEAR = 1, MAXYEAR = 9999, day within the month, second at most 59:
the leap seconds 60 and 61 admitted by the strptime regex are rejected
here, so both paths end in ValueError and the model returns none). -/
def mkDatetime (y m d hh mm ss : Nat) : Option DateTime :=
  if 1 ≤ y ∧ y ≤ 9999 ∧ 1 ≤ m ∧ m ≤ 12 ∧ 1 ≤ d ∧ d ≤ daysInMonth y m
      ∧ hh ≤ 23 ∧ mm ≤ 59 ∧ ss ≤ 59
  then some ⟨y, m, d, hh, mm, ss⟩ else none

/-- Whitespace class of the re module used on these inputs
(ASCII part of the Python regex class backslash-s: space, tab, newline,
carriage return, vertical tab, form feed). -/
def isPySpace (c : Char) : Bool :=
  c == ' ' || c == '\t' || c == '\n' || c == '\r' || c == '\x0b' || c == '\x0c'

/-- Numeric value of a digit run, most significant digit first. -/
def charsToNat (l : List Char) : Nat :=
  List.foldl (fun acc c => 10 * acc + (c.toNat - '0'.toNat)) 0 l

/-- The strptime directive Y: exactly four digits. -/
def parseFixed4 (l : List Char) : Option (Nat × List Char) :=
  match l with
  | a :: b :: c :: d :: rest =>
      if a.isDigit && b.isDigit && c.isDigit && d.isDigit then
        some (charsToNat [a, b, c, d], rest)
      else none
  | _ => none

/-- A one-or-two digit strptime directive (m, d, H, M, S) with an
inclusive value range.  The CPython ordered-alternation regex for these
directives, followed in all our formats by a non-digit pattern element,
accepts exactly: a maximal digit run of length one or two whose value is
in range. -/
def parseNum2 (lo hi : Nat) (l : List Char) : Option (Nat × List Char) :=
  let run := l.takeWhile Char.isDigit
  let rest := l.dropWhile Char.isDigit
  if run.length = 0 ∨ 3 ≤ run.length then none
  else
    let v := charsToNat run
    if lo ≤ v ∧ v ≤ hi then some (v, rest) else none

/-- A literal character in the format string. -/
def parseLit (c : Char) (l : List Char) : Option (List Char) :=
  match l with
  | x :: rest => if x = c then some rest else none
  | [] => none

/-- A whitespace character in the format string: CPython compiles it to
one-or-more whitespace characters. -/
def parseWs (l : List Char) : Option (List Char) :=
  if (l.takeWhile isPySpace).length = 0 then none
  else some (l.dropWhile isPySpace)

/-- datetime.strptime with format Y-m-d (the date-only format).
Returns none where Python raises ValueError, including when trailing
unconverted data remains. -/
def strptimeDateOnlyL (l : List Char) : Option DateTime := do
  let (y, r1) ← parseFixed4 l
  let r2 ← parseLit '-' r1
  let (m, r3) ← parseNum2 1 12 r2
  let r4 ← parseLit '-' r3
  let (d, r5) ← parseNum2 1 31 r4
  guard (r5 = [])
  mkDatetime y m d 0 0 0

/-- datetime.strptime with format Y-m-d H:M:S (the timestamp format). -/
def strptimeTimestampL (l : List Char) : Option DateTime := do
  let (y, r1) ← parseFixed4 l
  let r2 ← parseLit '-' r1
  let (m, r3) ← parseNum2 1 12 r2
  let r4 ← parseLit '-' r3
  let (d, r5) ← parseNum2 1 31 r4
  let r6 ← parseWs r5
  let (hh, r7) ← parseNum2 0 23 r6
  let r8 ← parseLit ':' r7
  let (mm, r9) ← parseNum2 0 59 r8
  let r10 ← parseLit ':' r9
  let (ss, r11) ← parseNum2 0 59 r10
  guard (r11 = [])
  mkDatetime y m d hh mm ss

/-- String-level wrapper for the date-only format. -/
def strptimeDateOnly (s : String) : Option DateTime := strptimeDateOnlyL s.data

/-- String-level wrapper for the timestamp format. -/
def strptimeTimestamp (s : String) : Option DateTime := strptimeTimestampL s.data

/-- A Python value appearing in the xaxis or yaxis arrays of the JSON
request: a string or a number. -/
inductive PyVal where
  | str (s : String)
  | num (n : Int)
deriving DecidableEq

/-- Whether a Python value is a string. -/
def PyVal.isStr : PyVal → Bool
  | .str _ => true
  | .num _ => false

/-- The Python exceptions relevant to the embedded code. -/
inductive PyErr where
  | valueError
  | typeError
  | keyError
deriving DecidableEq

/-- The DateParser class: a single mode flag, initially False
(timestamp mode). -/
structure DateParser where
  dates_only : Bool
deriving DecidableEq

/-- The DateParser() constructor: dates_only starts False. -/
def DateParser.new : DateParser := ⟨false⟩

/-- DateParser.parse.  In dates-only mode it runs strptime with the
date-only format; otherwise it tries the timestamp format and, on
ValueError, logs a warning, sets dates_only to True and retries the
same string (the recursive retry is inlined here: with dates_only now
True it runs exactly the dates-only branch, and a ValueError raised
there escapes the except-ValueError handler it was called from).
strptime raises TypeError when its argument is not a string, in either
mode; that branch never reaches the warning.  The result carries the
parsed value, the updated parser state, and the warned-about string if
a warning was logged. -/
def DateParser.parse (dp : DateParser) (d : PyVal) :
    Except PyErr (DateTime × DateParser × Option String) :=
  match d, dp.dates_only with
  | .num _, _ => .error .typeError
  | .str s, true =>
      match strptimeDateOnly s with
      | some v => .ok (v, dp, none)
      | none => .error .valueError
  | .str s, false =>
      match strptimeTimestamp s with
      | some v => .ok (v, dp, none)
      | none =>
          match strptimeDateOnly s with
          | some v => .ok (v, ⟨true⟩, some s)
          | none => .error .valueError

/-- The list comprehension in generate_graph that parses every xaxis
entry in order through one DateParser object, stopping at the first
uncaught exception.  Also collects the warnings logged along the way. -/
def parseXAxis (dp : DateParser) (xs : List PyVal) :
    Except PyErr (List DateTime × DateParser × List String) :=
  match xs with
  | [] => .ok ([], dp, [])
  | d :: rest =>
      match dp.parse d with
      | .error e => .error e
      | .ok (v, dp2, w) =>
          match parseXAxis dp2 rest with
          | .error e => .error e
          | .ok (vs, dp3, ws) => .ok (v :: vs, dp3, w.toList ++ ws)

/-- The matplotlib day-number representation of a datetime.  The code
only converts datetimes to numbers (date2num) and straight back
(num2date in the formatter constructor), so the float encoding is
abstracted by an exact wrapper. -/
structure MplDateNum where
  num2date : DateTime
deriving DecidableEq

/-- matplotlib.dates.date2num. -/
def date2num (d : DateTime) : MplDateNum := ⟨d⟩

/-- The strftime format strings that appear in the source: the
tick-label formats (no-pad month / no-pad day, with or without
two-digit hour:minute) and the Y-m-d default of the
WeekdayDateFormatter constructor. -/
inductive TickFmt where
  | mdHM
  | md
  | ymd
deriving DecidableEq

/-- Two-digit zero-padded decimal field. -/
def pad2 (n : Nat) : String :=
  if n < 10 then "0" ++ toString n else toString n

/-- Four-digit zero-padded decimal field. -/
def pad4 (n : Nat) : String :=
  if n < 10 then "000" ++ toString n
  else if n < 100 then "00" ++ toString n
  else if n < 1000 then "0" ++ toString n
  else toString n

/-- datetime.strftime restricted to the three formats the source
uses. -/
def DateTime.strftime (d : DateTime) : TickFmt → String
  | .mdHM =>
      toString d.month ++ "/" ++ toString d.day ++ " "
        ++ pad2 d.hour ++ ":" ++ pad2 d.minute
  | .md => toString d.month ++ "/" ++ toString d.day
  | .ymd => pad4 d.year ++ "-" ++ pad2 d.month ++ "-" ++ pad2 d.day

/-- The WeekdayDateFormatter object: the list of dates recovered with
num2date in the constructor, and the format string. -/
structure WeekdayDateFormatter where
  dates : List DateTime
  fmt : TickFmt
deriving DecidableEq

/-- The WeekdayDateFormatter constructor: maps num2date over the given
day numbers and stores the format. -/
def WeekdayDateFormatter.ofNums (nums : List MplDateNum) (fmt : TickFmt) :
    WeekdayDateFormatter :=
  ⟨nums.map MplDateNum.num2date, fmt⟩

/-- The call method of WeekdayDateFormatter.  The tick positions the
code feeds it are integral, so the int(np.round(x)) step is modelled by
taking the argument as an integer directly.  Out-of-range indices give
the empty string; otherwise the date at that index is formatted. -/
def WeekdayDateFormatter.call (f : WeekdayDateFormatter) (x : Int) : String :=
  if h : (f.dates.length : Int) ≤ x ∨ x < 0 then ""
  else DateTime.strftime (f.dates.get ⟨x.toNat, by omega⟩) f.fmt

/-- The two axis locators the source constructs:
matplotlib.ticker.IndexLocator with a base (stride) and offset, and
plt.MaxNLocator with a bin bound. -/
inductive Locator where
  | indexLocator (base : Int) (offset : Int)
  | maxNLocator (nbins : Nat)
deriving DecidableEq

/-- The figure state generate_graph builds: the series handed to
ax.plot, the formatter and locators installed on the axes, the label
texts, and whether fig.autofmt_xdate() ran.  ylocator is always
MaxNLocator(5); xformatter is none when the axis keeps the default
matplotlib formatter (the fallback path). -/
structure Figure where
  xplot : List PyVal
  yplot : List PyVal
  xformatter : Option WeekdayDateFormatter
  xlocator : Locator
  ylocator : Locator
  xlabel : String
  ylabel : String
  title : String
  autofmtXdate : Bool
deriving DecidableEq

/-- The graph sub-object of the request.  xaxis and yaxis are optional
because validate_data checks their presence; a lookup of a missing key
raises KeyError. -/
structure GraphDict where
  xaxis : Option (List PyVal)
  yaxis : Option (List PyVal)
  xlabel : Option String
  ylabel : Option String
  title : Option String
deriving DecidableEq

/-- generate_graph.  The first logging line subscripts both
graph entries, so a missing xaxis or yaxis key raises KeyError up
front.  The try block parses the x axis, builds the formatter and the
IndexLocator with base len(xaxis) // 5 - 1 and offset 0, and plots the
y values against the integer positions 0..N-1; only ValueError is
caught, producing the fallback plot of the raw x values with
MaxNLocator(5) and no date formatter.  Labels fall back to their
defaults via dict.get. -/
def generateGraph (graph : GraphDict) : Except PyErr Figure :=
  match graph.xaxis, graph.yaxis with
  | none, _ => .error .keyError
  | some _, none => .error .keyError
  | some xaxisRaw, some yaxisRaw =>
    let xlabel := graph.xlabel.getD ("x")
    let ylabel := graph.ylabel.getD ("y")
    let title := graph.title.getD ("My Graph")
    match parseXAxis DateParser.new xaxisRaw with
    | .ok (vals, dp, _warns) =>
        let xaxis := vals.map date2num
        let x_axis_fmt := if dp.dates_only then TickFmt.md else TickFmt.mdHM
        let formatter := WeekdayDateFormatter.ofNums xaxis x_axis_fmt
        let locator := Locator.indexLocator ((xaxis.length : Int) / 5 - 1) 0
        .ok { xplot := (List.range xaxis.length).map
                (fun i => PyVal.num (Int.ofNat i)),
              yplot := yaxisRaw,
              xformatter := some formatter,
              xlocator := locator,
              ylocator := .maxNLocator 5,
              xlabel := xlabel, ylabel := ylabel, title := title,
              autofmtXdate := true }
    | .error .valueError =>
        .ok { xplot := xaxisRaw,
              yplot := yaxisRaw,
              xformatter := none,
              xlocator := .maxNLocator 5,
              ylocator := .maxNLocator 5,
              xlabel := xlabel, ylabel := ylabel, title := title,
              autofmtXdate := false }
    | .error e => .error e

/-- The top-level request object; validate_data and lambda_handler
look up the graph, symbol and date keys. -/
structure ChartData where
  graph : Option GraphDict
  symbol : Option String
  date : Option String
deriving DecidableEq

/-- The ValueError messages validate_data raises, abstracted to which
condition fired: a missing-field message naming the field, or the
dimension-mismatch message. -/
inductive ValidationMsg where
  | missingField (field : String)
  | dimensionMismatch
deriving DecidableEq

/-- validate_data: graph must be present, then xaxis, then yaxis, then
the two axes must have the same length; otherwise it returns (and
modifies nothing, being a pure sequence of membership tests). -/
def validate_data (data : ChartData) : Except ValidationMsg Unit :=
  match data.graph with
  | none => .error (.missingField ("graph"))
  | some g =>
    match g.xaxis with
    | none => .error (.missingField ("xaxis"))
    | some xs =>
      match g.yaxis with
      | none => .error (.missingField ("yaxis"))
      | some ys =>
        if xs.length ≠ ys.length then .error .dimensionMismatch
        else .ok ()

/-- The substitution re.sub on the whitespace-run pattern with a
hyphen replacement: scanning left to right, each maximal nonempty run
of whitespace characters becomes a single hyphen.  The Boolean records
whether the scan is inside a whitespace run already replaced. -/
def subWsAux : Bool → List Char → List Char
  | _, [] => []
  | inRun, c :: rest =>
      if isPySpace c then
        if inRun then subWsAux true rest
        else '-' :: subWsAux true rest
      else c :: subWsAux false rest

/-- String-level wrapper for the whitespace-collapsing substitution. -/
def subWs (s : String) : String := ⟨subWsAux false s.data⟩

/-- The in-run state of the substitution scan after consuming a list:
the whitespace class of its last character, or the starting state for
an empty list. -/
def stateAfter (st : Bool) : List Char → Bool
  | [] => st
  | c :: rest => stateAfter (isPySpace c) rest

/-- The key_name computation in lambda_handler: format the symbol and
date into a png file name and collapse whitespace runs to hyphens. -/
def lambdaKeyName (symbol date : String) : String :=
  subWs (symbol ++ "-" ++ date ++ ".png")

/-- get_url. -/
def getUrl (bucketName keyName : String) : String :=
  "https://s3.amazonaws.com/" ++ bucketName ++ "/" ++ keyName

/-- How many tick positions the IndexLocator rule
(offset + k * base for k = 0, 1, ...) selects inside the index range
0..n-1 when the offset is 0; a non-positive stride selects none. -/
def indexTickCount (n : Nat) (base : Int) : Nat :=
  if base ≤ 0 then 0 else (n - 1) / base.toNat + 1

/-
  Theorems.  Helper lemmas come first; the claim theorems are marked
  with their claim identifiers in the doc comments.
-/

/-- The label fields of any figure generate_graph returns are the
request fields with dict.get defaults applied. -/
theorem generateGraph_labels {g : GraphDict} {fig : Figure}
    (h : generateGraph g = .ok fig) :
    fig.xlabel = g.xlabel.getD ("x") ∧ fig.ylabel = g.ylabel.getD ("y")
      ∧ fig.title = g.title.getD ("My Graph") := by
  obtain ⟨gx, gy, gxl, gyl, gt⟩ := g
  cases gx with
  | none => simp [generateGraph] at h
  | some xs =>
    cases gy with
    | none => simp [generateGraph] at h
    | some ys =>
      cases hp : parseXAxis DateParser.new xs with
      | ok r =>
        obtain ⟨vals, dp, ws⟩ := r
        simp [generateGraph, hp] at h
        subst h
        simp
      | error e =>
        cases e with
        | valueError =>
          simp [generateGraph, hp] at h
          subst h
          simp
        | typeError => simp [generateGraph, hp] at h
        | keyError => simp [generateGraph, hp] at h

/-- C9: when xlabel, ylabel or title is absent from the graph request
the rendered chart uses the defaults x, y and My Graph respectively;
when a field is present the supplied value is used unchanged. -/
theorem c9_label_defaults :
    ∀ (g : GraphDict) (fig : Figure), generateGraph g = .ok fig →
      ((g.xlabel = none → fig.xlabel = "x")
        ∧ ∀ s, g.xlabel = some s → fig.xlabel = s)
      ∧ ((g.ylabel = none → fig.ylabel = "y")
        ∧ ∀ s, g.ylabel = some s → fig.ylabel = s)
      ∧ ((g.title = none → fig.title = "My Graph")
        ∧ ∀ s, g.title = some s → fig.title = s) := by
  intro g fig h
  obtain ⟨h1, h2, h3⟩ := generateGraph_labels h
  refine ⟨⟨fun hx => ?_, fun s hx => ?_⟩, ⟨fun hy => ?_, fun s hy => ?_⟩,
    ⟨fun ht => ?_, fun s ht => ?_⟩⟩ <;>
    simp_all

/-- Witness for C9 at a concrete request: one field absent, one
present. -/
theorem c9_label_defaults_witness :
    ((⟨some [PyVal.str ("2024-01-02")], some [PyVal.num 1], none,
        some ("price"), none⟩ : GraphDict).xlabel = none →
      Figure.xlabel ⟨[PyVal.num 0], [PyVal.num 1],
        some ⟨[⟨2024, 1, 2, 0, 0, 0⟩], TickFmt.md⟩,
        Locator.indexLocator (-1) 0, Locator.maxNLocator 5,
        "x", "price", "My Graph", true⟩ = "x")
    ∧ ∀ s, (⟨some [PyVal.str ("2024-01-02")], some [PyVal.num 1], none,
        some ("price"), none⟩ : GraphDict).ylabel = some s →
      Figure.ylabel ⟨[PyVal.num 0], [PyVal.num 1],
        some ⟨[⟨2024, 1, 2, 0, 0, 0⟩], TickFmt.md⟩,
        Locator.indexLocator (-1) 0, Locator.maxNLocator 5,
        "x", "price", "My Graph", true⟩ = s :=
  ⟨(c9_label_defaults
      ⟨some [PyVal.str ("2024-01-02")], some [PyVal.num 1], none,
        some ("price"), none⟩
      ⟨[PyVal.num 0], [PyVal.num 1],
        some ⟨[⟨2024, 1, 2, 0, 0, 0⟩], TickFmt.md⟩,
        Locator.indexLocator (-1) 0, Locator.maxNLocator 5,
        "x", "price", "My Graph", true⟩ (by rfl)).1.1,
   (c9_label_defaults
      ⟨some [PyVal.str ("2024-01-02")], some [PyVal.num 1], none,
        some ("price"), none⟩
      ⟨[PyVal.num 0], [PyVal.num 1],
        some ⟨[⟨2024, 1, 2, 0, 0, 0⟩], TickFmt.md⟩,
        Locator.indexLocator (-1) 0, Locator.maxNLocator 5,
        "x", "price", "My Graph", true⟩ (by rfl)).2.1.2⟩

/-- C3: validate_data raises the missing-field error exactly when the
graph object, its xaxis, or its yaxis is absent (in that order of
checks), raises the dimension-mismatch error exactly when the two axes
differ in length, and returns without error in every other case;
being a pure function of the request it modifies nothing.  The three
concrete cases of the claim are included. -/
theorem c3_validate_characterisation :
    (∀ d : ChartData, d.graph = none →
        validate_data d = .error (.missingField ("graph")))
    ∧ (∀ (d : ChartData) (g : GraphDict), d.graph = some g →
        g.xaxis = none →
        validate_data d = .error (.missingField ("xaxis")))
    ∧ (∀ (d : ChartData) (g : GraphDict) (xs : List PyVal),
        d.graph = some g → g.xaxis = some xs → g.yaxis = none →
        validate_data d = .error (.missingField ("yaxis")))
    ∧ (∀ (d : ChartData) (g : GraphDict) (xs ys : List PyVal),
        d.graph = some g → g.xaxis = some xs → g.yaxis = some ys →
        xs.length ≠ ys.length →
        validate_data d = .error .dimensionMismatch)
    ∧ (∀ (d : ChartData) (g : GraphDict) (xs ys : List PyVal),
        d.graph = some g → g.xaxis = some xs → g.yaxis = some ys →
        xs.length = ys.length →
        validate_data d = .ok ())
    ∧ validate_data ⟨none, none, none⟩ = .error (.missingField ("graph"))
    ∧ validate_data ⟨some ⟨some [PyVal.num 1], none, none, none, none⟩,
        none, none⟩ = .error (.missingField ("yaxis"))
    ∧ validate_data ⟨some ⟨some [PyVal.num 1, PyVal.num 2],
        some [PyVal.num 1], none, none, none⟩, none, none⟩
        = .error .dimensionMismatch := by
  refine ⟨?_, ?_, ?_, ?_, ?_, rfl, rfl, rfl⟩
  · intro d h
    simp [validate_data, h]
  · intro d g hg hx
    simp [validate_data, hg, hx]
  · intro d g xs hg hx hy
    simp [validate_data, hg, hx, hy]
  · intro d g xs ys hg hx hy hlen
    simp [validate_data, hg, hx, hy, hlen]
  · intro d g xs ys hg hx hy hlen
    simp [validate_data, hg, hx, hy, hlen]

/-- Witness for C3: a request with both axes present and of equal
length validates without error. -/
theorem c3_validate_characterisation_witness :
    validate_data ⟨some ⟨some [PyVal.num 1], some [PyVal.num 2],
      none, none, none⟩, none, none⟩ = .ok () :=
  c3_validate_characterisation.2.2.2.2.1
    ⟨some ⟨some [PyVal.num 1], some [PyVal.num 2], none, none, none⟩,
      none, none⟩
    ⟨some [PyVal.num 1], some [PyVal.num 2], none, none, none⟩
    [PyVal.num 1] [PyVal.num 2] rfl rfl rfl rfl

/-- C5: the formatter call returns the empty string, without raising,
for every index outside the range of the stored date series. -/
theorem c5_out_of_range_label_empty :
    ∀ (f : WeekdayDateFormatter) (i : Int),
      (i < 0 ∨ (f.dates.length : Int) ≤ i) → f.call i = "" := by
  intro f i h
  unfold WeekdayDateFormatter.call
  rw [dif_pos (Or.symm h)]

/-- Witness for C5 at the two boundary indices of the claim: minus one
and the length of the series. -/
theorem c5_out_of_range_label_empty_witness :
    WeekdayDateFormatter.call ⟨[dtDefault], TickFmt.md⟩ (-1) = ""
    ∧ WeekdayDateFormatter.call ⟨[dtDefault], TickFmt.md⟩ 1 = "" :=
  ⟨c5_out_of_range_label_empty ⟨[dtDefault], TickFmt.md⟩ (-1)
      (Or.inl (by decide)),
   c5_out_of_range_label_empty ⟨[dtDefault], TickFmt.md⟩ 1
      (Or.inr (by decide))⟩

/-- The substitution scan distributes over append, threading the
in-run state. -/
theorem subWsAux_append (a : List Char) :
    ∀ (st : Bool) (b : List Char),
      subWsAux st (a ++ b) = subWsAux st a ++ subWsAux (stateAfter st a) b := by
  induction a with
  | nil => intro st b; simp [subWsAux, stateAfter]
  | cons c a ih =>
    intro st b
    by_cases h : isPySpace c = true <;> cases st <;>
      simp [subWsAux, stateAfter, h, ih]

/-- A run of whitespace produces no output once the scan is already in
a run. -/
theorem subWsAux_true_space (r : List Char)
    (hr : ∀ c ∈ r, isPySpace c = true) : subWsAux true r = [] := by
  induction r with
  | nil => rfl
  | cons c r ih =>
    simp only [List.mem_cons, forall_eq_or_imp] at hr
    simp [subWsAux, hr.1, ih hr.2]

/-- After a whitespace run the scan state stays in-run. -/
theorem stateAfter_true_space (r : List Char)
    (hr : ∀ c ∈ r, isPySpace c = true) : stateAfter true r = true := by
  induction r with
  | nil => rfl
  | cons c r ih =>
    simp only [List.mem_cons, forall_eq_or_imp] at hr
    simp [stateAfter, hr.1, ih hr.2]

/-- The two scan states agree on a list not starting with
whitespace. -/
theorem subWsAux_true_eq_false (b : List Char)
    (hb : ∀ c, b.head? = some c → isPySpace c = false) :
    subWsAux true b = subWsAux false b := by
  cases b with
  | nil => rfl
  | cons c b => simp [subWsAux, hb c rfl]

/-- The scan state after a list is the whitespace class of its last
character. -/
theorem stateAfter_last (a : List Char) :
    ∀ (c : Char) (st : Bool), a.getLast? = some c →
      stateAfter st a = isPySpace c := by
  induction a with
  | nil => intro c st h; simp at h
  | cons d a ih =>
    intro c st h
    cases a with
    | nil =>
      simp at h
      subst h
      rfl
    | cons e a =>
      rw [List.getLast?_cons_cons] at h
      exact ih c (isPySpace d) h

/-- Text without whitespace passes through the substitution
unchanged. -/
theorem subWsAux_no_space (l : List Char)
    (hl : ∀ c ∈ l, isPySpace c = false) : subWsAux false l = l := by
  induction l with
  | nil => rfl
  | cons c l ih =>
    simp only [List.mem_cons, forall_eq_or_imp] at hl
    simp [subWsAux, hl.1, ih hl.2]

/-- C8: the storage key is the formatted string symbol-date.png with
every maximal run of whitespace characters, anywhere in the string,
replaced by a single hyphen, and the public URL is exactly the s3 host
followed by the bucket name, a slash and that key.  The second and
third conjuncts characterise the run collapsing: whitespace-free text
is unchanged, and a nonempty whitespace run with non-whitespace (or
empty) context on both sides becomes exactly one hyphen. -/
theorem c8_key_and_url :
    (∀ symbol date : String,
        lambdaKeyName symbol date = subWs (symbol ++ "-" ++ date ++ ".png"))
    ∧ (∀ l : List Char, (∀ c ∈ l, isPySpace c = false) →
        subWsAux false l = l)
    ∧ (∀ a r b : List Char, r ≠ [] → (∀ c ∈ r, isPySpace c = true) →
        (∀ c, a.getLast? = some c → isPySpace c = false) →
        (∀ c, b.head? = some c → isPySpace c = false) →
        subWsAux false (a ++ r ++ b)
          = subWsAux false a ++ '-' :: subWsAux false b)
    ∧ (∀ bucketName keyName : String,
        getUrl bucketName keyName
          = "https://s3.amazonaws.com/" ++ bucketName ++ "/" ++ keyName) := by
  refine ⟨fun symbol date => rfl, subWsAux_no_space, ?_, fun b k => rfl⟩
  intro a r b hr hrs ha hb
  have hsa : stateAfter false a = false := by
    cases hla : a.getLast? with
    | none =>
      have : a = [] := by
        cases a with
        | nil => rfl
        | cons x a => simp [List.getLast?_eq_getLast] at hla
      subst this
      rfl
    | some c => rw [stateAfter_last a c false hla, ha c hla]
  cases r with
  | nil => exact absurd rfl hr
  | cons c r =>
    simp only [List.mem_cons, forall_eq_or_imp] at hrs
    rw [List.append_assoc, subWsAux_append a, hsa, List.cons_append,
      subWsAux, if_pos hrs.1, subWsAux_append r, subWsAux_true_space r hrs.2,
      stateAfter_true_space r hrs.2, subWsAux_true_eq_false b hb]
    simp

/-- Witness for C8: a concrete key computation and a concrete maximal
run collapse. -/
theorem c8_key_and_url_witness :
    lambdaKeyName ("AB C") ("2024 01")
      = subWs (("AB C") ++ "-" ++ ("2024 01") ++ ".png")
    ∧ subWsAux false (['A', 'B'] ++ [' ', '\t'] ++ ['C'])
      = subWsAux false ['A', 'B'] ++ '-' :: subWsAux false ['C'] :=
  ⟨c8_key_and_url.1 ("AB C") ("2024 01"),
   c8_key_and_url.2.2.1 ['A', 'B'] [' ', '\t'] ['C'] (by decide)
     (by decide) (by decide) (by decide)⟩

/-- C1: the parser starts in timestamp mode; a string that parses
under the timestamp format leaves the mode unchanged; the first string
failing that format produces a warning, a permanent switch to
date-only mode and a retry of the same string under date-only format;
if the retry also fails the parse error aborts; a failure while
already in date-only mode aborts; the mode never leaves date-only
once set; and an element-level parse error aborts the parse of the
whole series, whatever elements follow. -/
theorem c1_parser_fallback :
    DateParser.new.dates_only = false
    ∧ (∀ (s : String) (v : DateTime), strptimeTimestamp s = some v →
        DateParser.parse ⟨false⟩ (.str s) = .ok (v, ⟨false⟩, none))
    ∧ (∀ (s : String) (v : DateTime), strptimeTimestamp s = none →
        strptimeDateOnly s = some v →
        DateParser.parse ⟨false⟩ (.str s) = .ok (v, ⟨true⟩, some s))
    ∧ (∀ s : String, strptimeTimestamp s = none → strptimeDateOnly s = none →
        DateParser.parse ⟨false⟩ (.str s) = .error .valueError)
    ∧ (∀ s : String, strptimeDateOnly s = none →
        DateParser.parse ⟨true⟩ (.str s) = .error .valueError)
    ∧ (∀ (d : PyVal) (r : DateTime × DateParser × Option String),
        DateParser.parse ⟨true⟩ d = .ok r → r.2.1 = ⟨true⟩)
    ∧ (∀ (dp : DateParser) (x : PyVal) (rest : List PyVal) (e : PyErr),
        DateParser.parse dp x = .error e →
        parseXAxis dp (x :: rest) = .error e) := by
  refine ⟨rfl, ?_, ?_, ?_, ?_, ?_, ?_⟩
  · intro s v h
    simp [DateParser.parse, h]
  · intro s v hts hdo
    simp [DateParser.parse, hts, hdo]
  · intro s hts hdo
    simp [DateParser.parse, hts, hdo]
  · intro s hdo
    simp [DateParser.parse, hdo]
  · intro d r h
    cases d with
    | num n => simp [DateParser.parse] at h
    | str s =>
      cases hdo : strptimeDateOnly s with
      | none => simp [DateParser.parse, hdo] at h
      | some v =>
        simp [DateParser.parse, hdo] at h
        rw [← h]
  · intro dp x rest e h
    simp [parseXAxis, h]

/-- Witness for C1 on concrete strings: a timestamp entry parses in
timestamp mode, a date-only entry triggers the warning and the
permanent switch, an unparseable entry aborts in either mode, and an
element error aborts the series regardless of the remaining
entries. -/
theorem c1_parser_fallback_witness :
    DateParser.parse ⟨false⟩ (.str ("2024-01-01 10:00:00"))
      = .ok (⟨2024, 1, 1, 10, 0, 0⟩, ⟨false⟩, none)
    ∧ DateParser.parse ⟨false⟩ (.str ("2024-01-02"))
      = .ok (⟨2024, 1, 2, 0, 0, 0⟩, ⟨true⟩, some ("2024-01-02"))
    ∧ DateParser.parse ⟨false⟩ (.str ("not-a-date")) = .error .valueError
    ∧ DateParser.parse ⟨true⟩ (.str ("not-a-date")) = .error .valueError
    ∧ parseXAxis ⟨true⟩ [.str ("not-a-date"), .str ("2024-01-02")]
      = .error .valueError :=
  ⟨c1_parser_fallback.2.1 ("2024-01-01 10:00:00") ⟨2024, 1, 1, 10, 0, 0⟩
      (by decide),
   c1_parser_fallback.2.2.1 ("2024-01-02") ⟨2024, 1, 2, 0, 0, 0⟩
      (by decide) (by decide),
   c1_parser_fallback.2.2.2.1 ("not-a-date") (by decide) (by decide),
   c1_parser_fallback.2.2.2.2.1 ("not-a-date") (by decide),
   c1_parser_fallback.2.2.2.2.2.2 ⟨true⟩ (.str ("not-a-date"))
      [.str ("2024-01-02")] .valueError (by rfl)⟩

/-- A series parsed from the date-only state parses every element with
the date-only format, stays in the date-only state, and warns about
nothing. -/
theorem parseXAxis_datesOnly (xs : List String) :
    ∀ (vs : List DateTime) (dp : DateParser) (ws : List String),
      parseXAxis ⟨true⟩ (xs.map PyVal.str) = .ok (vs, dp, ws) →
      dp = ⟨true⟩ ∧ ws = [] ∧ vs.length = xs.length
        ∧ ∀ i, i < xs.length →
            strptimeDateOnly (xs.getD i strDefault)
              = some (vs.getD i dtDefault) := by
  induction xs with
  | nil =>
    intro vs dp ws h
    simp only [List.map_nil, parseXAxis, Except.ok.injEq, Prod.mk.injEq] at h
    obtain ⟨h1, h2, h3⟩ := h
    subst h1
    subst h2
    subst h3
    exact ⟨rfl, rfl, rfl, fun i hi => absurd hi (by simp)⟩
  | cons x xs ih =>
    intro vs dp ws h
    cases hdo : strptimeDateOnly x with
    | none =>
      have hp : DateParser.parse ⟨true⟩ (PyVal.str x) = .error .valueError := by
        simp [DateParser.parse, hdo]
      simp only [List.map_cons, parseXAxis, hp] at h
      exact Except.noConfusion h
    | some v =>
      have hp : DateParser.parse ⟨true⟩ (PyVal.str x)
          = .ok (v, ⟨true⟩, none) := by
        simp [DateParser.parse, hdo]
      cases hrest : parseXAxis ⟨true⟩ (xs.map PyVal.str) with
      | error e =>
        simp only [List.map_cons, parseXAxis, hp, hrest] at h
        exact Except.noConfusion h
      | ok r =>
        obtain ⟨vs2, dp2, ws2⟩ := r
        simp only [List.map_cons, parseXAxis, hp, hrest, Option.toList_none,
          List.nil_append, Except.ok.injEq, Prod.mk.injEq] at h
        obtain ⟨h1, h2, h3⟩ := h
        subst h1
        subst h2
        subst h3
        obtain ⟨ihdp, ihws, ihlen, ihidx⟩ := ih vs2 dp2 ws2 hrest
        refine ⟨ihdp, ihws, by simp [ihlen], ?_⟩
        intro i hi
        cases i with
        | zero => simpa using hdo
        | succ j =>
          simp only [List.getD_cons_succ]
          exact ihidx j (by simpa using hi)

/-- A series parsed from the timestamp state splits at the index where
the mode switched: a prefix parsed with the timestamp format, the rest
(beginning with the string whose timestamp parse failed) parsed with
the date-only format, the final mode recording whether a switch
happened at all. -/
theorem parseXAxis_fromTimestamp (xs : List String) :
    ∀ (vs : List DateTime) (dp : DateParser) (ws : List String),
      parseXAxis ⟨false⟩ (xs.map PyVal.str) = .ok (vs, dp, ws) →
      ∃ k, k ≤ xs.length ∧ vs.length = xs.length
        ∧ (∀ i, i < k →
            strptimeTimestamp (xs.getD i strDefault)
              = some (vs.getD i dtDefault))
        ∧ (∀ i, k ≤ i → i < xs.length →
            strptimeDateOnly (xs.getD i strDefault)
              = some (vs.getD i dtDefault))
        ∧ (dp.dates_only = true ↔ k < xs.length)
        ∧ (k < xs.length → strptimeTimestamp (xs.getD k strDefault) = none) := by
  induction xs with
  | nil =>
    intro vs dp ws h
    simp only [List.map_nil, parseXAxis, Except.ok.injEq, Prod.mk.injEq] at h
    obtain ⟨h1, h2, h3⟩ := h
    subst h1
    subst h2
    refine ⟨0, Nat.le_refl 0, rfl, ?_, ?_, ?_, ?_⟩
    · intro i hi
      exact absurd hi (Nat.not_lt_zero i)
    · intro i hi hi2
      exact absurd hi2 (Nat.not_lt_zero i)
    · simp
    · intro hk
      exact absurd hk (Nat.not_lt_zero 0)
  | cons x xs ih =>
    intro vs dp ws h
    cases hts : strptimeTimestamp x with
    | some v =>
      have hp : DateParser.parse ⟨false⟩ (PyVal.str x)
          = .ok (v, ⟨false⟩, none) := by
        simp [DateParser.parse, hts]
      cases hrest : parseXAxis ⟨false⟩ (xs.map PyVal.str) with
      | error e =>
        simp only [List.map_cons, parseXAxis, hp, hrest] at h
        exact Except.noConfusion h
      | ok r =>
        obtain ⟨vs2, dp2, ws2⟩ := r
        simp only [List.map_cons, parseXAxis, hp, hrest, Option.toList_none,
          List.nil_append, Except.ok.injEq, Prod.mk.injEq] at h
        obtain ⟨h1, h2, h3⟩ := h
        subst h1
        subst h2
        subst h3
        obtain ⟨k, hk, hlen, hpre, hpost, hmode, hfail⟩ := ih vs2 dp2 ws2 hrest
        refine ⟨k + 1, by simpa using hk, by simp [hlen], ?_, ?_, ?_, ?_⟩
        · intro i hi
          cases i with
          | zero => simpa using hts
          | succ j =>
            simp only [List.getD_cons_succ]
            exact hpre j (by omega)
        · intro i hi hi2
          cases i with
          | zero => exact absurd hi (by omega)
          | succ j =>
            simp only [List.getD_cons_succ]
            exact hpost j (by omega) (by simpa using hi2)
        · simpa using hmode
        · intro hk2
          simp only [List.getD_cons_succ]
          exact hfail (by simpa using hk2)
    | none =>
      cases hdo : strptimeDateOnly x with
      | none =>
        have hp : DateParser.parse ⟨false⟩ (PyVal.str x)
            = .error .valueError := by
          simp [DateParser.parse, hts, hdo]
        simp only [List.map_cons, parseXAxis, hp] at h
        exact Except.noConfusion h
      | some v =>
        have hp : DateParser.parse ⟨false⟩ (PyVal.str x)
            = .ok (v, ⟨true⟩, some x) := by
          simp [DateParser.parse, hts, hdo]
        cases hrest : parseXAxis ⟨true⟩ (xs.map PyVal.str) with
        | error e =>
          simp only [List.map_cons, parseXAxis, hp, hrest] at h
          exact Except.noConfusion h
        | ok r =>
          obtain ⟨vs2, dp2, ws2⟩ := r
          simp only [List.map_cons, parseXAxis, hp, hrest, Option.toList_some,
            List.singleton_append, Except.ok.injEq, Prod.mk.injEq] at h
          obtain ⟨h1, h2, h3⟩ := h
          subst h1
          subst h2
          subst h3
          obtain ⟨ihdp, ihws, ihlen, ihidx⟩ := parseXAxis_datesOnly xs vs2 dp2 ws2 hrest
          subst ihdp
          refine ⟨0, Nat.zero_le _, by simp [ihlen], ?_, ?_, by simp, ?_⟩
          · intro i hi
            exact absurd hi (Nat.not_lt_zero i)
          · intro i hi hi2
            cases i with
            | zero => simpa using hdo
            | succ j =>
              simp only [List.getD_cons_succ]
              exact ihidx j (by simpa using hi2)
          · intro hk
            simpa using hts

/-- C7: when the mode switches at element k, elements before k keep
the values timestamp parsing gave them (they are not re-parsed), and
element k itself and everything after it parse under the date-only
format; the final mode is date-only exactly when a switch happened,
and the switch element is one the timestamp format rejects.  The
mixed series of the claim parses without fatal error: its first entry
under timestamp mode, with a final date-only mode. -/
theorem c7_mode_switch_per_element :
    (∀ (xs : List String) (vs : List DateTime) (dp : DateParser)
        (ws : List String),
      parseXAxis DateParser.new (xs.map PyVal.str) = .ok (vs, dp, ws) →
      ∃ k, k ≤ xs.length ∧ vs.length = xs.length
        ∧ (∀ i, i < k →
            strptimeTimestamp (xs.getD i strDefault)
              = some (vs.getD i dtDefault))
        ∧ (∀ i, k ≤ i → i < xs.length →
            strptimeDateOnly (xs.getD i strDefault)
              = some (vs.getD i dtDefault))
        ∧ (dp.dates_only = true ↔ k < xs.length)
        ∧ (k < xs.length → strptimeTimestamp (xs.getD k strDefault) = none))
    ∧ parseXAxis DateParser.new
        [PyVal.str ("2024-01-01 10:00:00"), PyVal.str ("2024-01-02")]
      = .ok ([⟨2024, 1, 1, 10, 0, 0⟩, ⟨2024, 1, 2, 0, 0, 0⟩], ⟨true⟩,
          [("2024-01-02")]) :=
  ⟨fun xs vs dp ws h => parseXAxis_fromTimestamp xs vs dp ws h, by rfl⟩

/-- Witness for C7: the general split statement instantiated at the
mixed series of the claim. -/
theorem c7_mode_switch_per_element_witness :
    ∃ k, k ≤ (["2024-01-01 10:00:00", "2024-01-02"] : List String).length
      ∧ ([⟨2024, 1, 1, 10, 0, 0⟩, ⟨2024, 1, 2, 0, 0, 0⟩] :
          List DateTime).length
          = (["2024-01-01 10:00:00", "2024-01-02"] : List String).length
      ∧ (∀ i, i < k →
          strptimeTimestamp
            ((["2024-01-01 10:00:00", "2024-01-02"] :
              List String).getD i strDefault)
            = some (([⟨2024, 1, 1, 10, 0, 0⟩, ⟨2024, 1, 2, 0, 0, 0⟩] :
                List DateTime).getD i dtDefault))
      ∧ (∀ i, k ≤ i →
          i < (["2024-01-01 10:00:00", "2024-01-02"] : List String).length →
          strptimeDateOnly
            ((["2024-01-01 10:00:00", "2024-01-02"] :
              List String).getD i strDefault)
            = some (([⟨2024, 1, 1, 10, 0, 0⟩, ⟨2024, 1, 2, 0, 0, 0⟩] :
                List DateTime).getD i dtDefault))
      ∧ ((⟨true⟩ : DateParser).dates_only = true
          ↔ k < (["2024-01-01 10:00:00", "2024-01-02"] : List String).length)
      ∧ (k < (["2024-01-01 10:00:00", "2024-01-02"] : List String).length →
          strptimeTimestamp
            ((["2024-01-01 10:00:00", "2024-01-02"] :
              List String).getD k strDefault) = none) :=
  c7_mode_switch_per_element.1 ["2024-01-01 10:00:00", "2024-01-02"]
    [⟨2024, 1, 1, 10, 0, 0⟩, ⟨2024, 1, 2, 0, 0, 0⟩] ⟨true⟩ ["2024-01-02"]
    (by rfl)

/-- The only exception DateParser.parse can raise on a string argument
is ValueError. -/
theorem parse_str_error (dp : DateParser) (s : String) (e : PyErr)
    (h : DateParser.parse dp (.str s) = .error e) : e = .valueError := by
  obtain ⟨b⟩ := dp
  cases b with
  | true =>
    cases hdo : strptimeDateOnly s with
    | none =>
      simp only [DateParser.parse, hdo, Except.error.injEq] at h
      exact h.symm
    | some v =>
      simp only [DateParser.parse, hdo] at h
      exact Except.noConfusion h
  | false =>
    cases hts : strptimeTimestamp s with
    | some v =>
      simp only [DateParser.parse, hts] at h
      exact Except.noConfusion h
    | none =>
      cases hdo : strptimeDateOnly s with
      | none =>
        simp only [DateParser.parse, hts, hdo, Except.error.injEq] at h
        exact h.symm
      | some v =>
        simp only [DateParser.parse, hts, hdo] at h
        exact Except.noConfusion h

/-- The only exception the x-axis parse loop can raise on a series of
strings is ValueError. -/
theorem parseXAxis_allStr_error (xs : List PyVal) :
    ∀ (dp : DateParser) (e : PyErr), (∀ v ∈ xs, v.isStr = true) →
      parseXAxis dp xs = .error e → e = .valueError := by
  induction xs with
  | nil =>
    intro dp e _ h
    simp only [parseXAxis] at h
    exact Except.noConfusion h
  | cons x xs ih =>
    intro dp e hstr h
    simp only [List.mem_cons, forall_eq_or_imp] at hstr
    obtain ⟨s, rfl⟩ : ∃ s, x = PyVal.str s := by
      cases x with
      | str s => exact ⟨s, rfl⟩
      | num n => simp [PyVal.isStr] at hstr
    cases hp : DateParser.parse dp (.str s) with
    | error e2 =>
      simp only [parseXAxis, hp, Except.error.injEq] at h
      subst h
      exact parse_str_error dp s e2 hp
    | ok r =>
      obtain ⟨v, dp2, w⟩ := r
      cases hrest : parseXAxis dp2 xs with
      | error e2 =>
        simp only [parseXAxis, hp, hrest, Except.error.injEq] at h
        subst h
        exact ih dp2 e2 hstr.2 hrest
      | ok r2 =>
        simp only [parseXAxis, hp, hrest] at h
        exact Except.noConfusion h

/-- When the x-axis parse succeeds, generate_graph returns the primary
figure: integer positions plotted against the y values, the
WeekdayDateFormatter over the parsed dates with the mode-dependent
format, and the IndexLocator with stride length // 5 - 1. -/
theorem generateGraph_parse_ok (xs ys : List PyVal)
    (gxl gyl gt : Option String) (vals : List DateTime) (dp : DateParser)
    (ws : List String)
    (hp : parseXAxis DateParser.new xs = .ok (vals, dp, ws)) :
    generateGraph ⟨some xs, some ys, gxl, gyl, gt⟩
      = .ok { xplot := (List.range (vals.map date2num).length).map
                (fun i => PyVal.num (Int.ofNat i)),
              yplot := ys,
              xformatter := some (WeekdayDateFormatter.ofNums
                (vals.map date2num)
                (if dp.dates_only then TickFmt.md else TickFmt.mdHM)),
              xlocator := Locator.indexLocator
                (((vals.map date2num).length : Int) / 5 - 1) 0,
              ylocator := .maxNLocator 5,
              xlabel := gxl.getD ("x"), ylabel := gyl.getD ("y"),
              title := gt.getD ("My Graph"),
              autofmtXdate := true } := by
  simp only [generateGraph, hp]

/-- When the x-axis parse raises the fatal ValueError, generate_graph
returns the fallback figure: the raw x values plotted against the y
values, no date formatter, and MaxNLocator(5) on the x axis. -/
theorem generateGraph_parse_valueError (xs ys : List PyVal)
    (gxl gyl gt : Option String)
    (hp : parseXAxis DateParser.new xs = .error .valueError) :
    generateGraph ⟨some xs, some ys, gxl, gyl, gt⟩
      = .ok { xplot := xs, yplot := ys, xformatter := none,
              xlocator := .maxNLocator 5, ylocator := .maxNLocator 5,
              xlabel := gxl.getD ("x"), ylabel := gyl.getD ("y"),
              title := gt.getD ("My Graph"),
              autofmtXdate := false } := by
  simp only [generateGraph, hp]

/-- C2: for a validated request whose x values are all strings,
generate_graph always returns a figure, and whenever temporal parsing
fails with its fatal parse error the returned figure is the fallback
one: the y values plotted directly against the raw x values, an
at-most-five-ticks numeric locator, no date formatter, and no date
label rotation. -/
theorem c2_render_total_on_strings :
    ∀ (d : ChartData) (g : GraphDict) (xs ys : List PyVal),
      d.graph = some g → g.xaxis = some xs → g.yaxis = some ys →
      validate_data d = .ok () →
      (∀ v ∈ xs, v.isStr = true) →
      ∃ fig, generateGraph g = .ok fig
        ∧ (∀ e, parseXAxis DateParser.new xs = .error e →
            fig.xplot = xs ∧ fig.yplot = ys ∧ fig.xformatter = none
              ∧ fig.xlocator = Locator.maxNLocator 5
              ∧ fig.autofmtXdate = false) := by
  intro d g xs ys hgraph hx hy hval hstr
  obtain ⟨gx, gy, gxl, gyl, gt⟩ := g
  simp only at hx hy
  subst hx
  subst hy
  cases hp : parseXAxis DateParser.new xs with
  | ok r =>
    obtain ⟨vals, dp, ws⟩ := r
    refine ⟨_, generateGraph_parse_ok xs ys gxl gyl gt vals dp ws hp, ?_⟩
    intro e he
    exact Except.noConfusion he
  | error e =>
    have he : e = .valueError :=
      parseXAxis_allStr_error xs DateParser.new e hstr hp
    subst he
    refine ⟨_, generateGraph_parse_valueError xs ys gxl gyl gt hp, ?_⟩
    intro e2 _
    exact ⟨rfl, rfl, rfl, rfl, rfl⟩

/-- Witness for C2: a validated request with an unparseable string
x value renders through the fallback path. -/
theorem c2_render_total_on_strings_witness :
    ∃ fig, generateGraph
        ⟨some [PyVal.str ("not-a-date")], some [PyVal.num 1],
          none, none, none⟩ = .ok fig
      ∧ (∀ e, parseXAxis DateParser.new [PyVal.str ("not-a-date")]
            = .error e →
          fig.xplot = [PyVal.str ("not-a-date")]
            ∧ fig.yplot = [PyVal.num 1] ∧ fig.xformatter = none
            ∧ fig.xlocator = Locator.maxNLocator 5
            ∧ fig.autofmtXdate = false) :=
  c2_render_total_on_strings
    ⟨some ⟨some [PyVal.str ("not-a-date")], some [PyVal.num 1],
      none, none, none⟩, none, none⟩
    ⟨some [PyVal.str ("not-a-date")], some [PyVal.num 1], none, none, none⟩
    [PyVal.str ("not-a-date")] [PyVal.num 1] rfl rfl rfl (by rfl) (by decide)

/-- The x-axis parse loop returns one parsed value per input
element. -/
theorem parseXAxis_length (xs : List PyVal) :
    ∀ (dp : DateParser) (vs : List DateTime) (dp2 : DateParser)
      (ws : List String),
      parseXAxis dp xs = .ok (vs, dp2, ws) → vs.length = xs.length := by
  induction xs with
  | nil =>
    intro dp vs dp2 ws h
    simp only [parseXAxis, Except.ok.injEq, Prod.mk.injEq] at h
    rw [← h.1]
    rfl
  | cons x xs ih =>
    intro dp vs dp2 ws h
    cases hp : dp.parse x with
    | error e =>
      simp only [parseXAxis, hp] at h
      exact Except.noConfusion h
    | ok r =>
      obtain ⟨v, dpMid, w⟩ := r
      cases hrest : parseXAxis dpMid xs with
      | error e =>
        simp only [parseXAxis, hp, hrest] at h
        exact Except.noConfusion h
      | ok r2 =>
        obtain ⟨vs2, dp3, ws2⟩ := r2
        simp only [parseXAxis, hp, hrest, Except.ok.injEq, Prod.mk.injEq] at h
        rw [← h.1]
        simp [ih dpMid vs2 dp3 ws2 hrest]

/-- The IndexLocator stride the code computes yields exactly six tick
positions on the index range once the series has at least 50
points. -/
theorem indexTickCount_six (n : Nat) (h : 50 ≤ n) :
    indexTickCount n ((n : Int) / 5 - 1) = 6 := by
  simp only [indexTickCount]
  rw [if_neg (by omega : ¬ ((n : Int) / 5 - 1 ≤ 0))]
  have ht : ((n : Int) / 5 - 1).toNat = n / 5 - 1 := by omega
  rw [ht]
  have h1 := Nat.div_add_mod n 5
  have h2 : n % 5 < 5 := Nat.mod_lt n (by norm_num)
  have h3 : 5 * (n / 5 - 1) ≤ n - 1 := by omega
  have h5 : (n - 1) / (n / 5 - 1) = 5 := Nat.div_eq_of_lt_le h3 (by omega)
  omega

/-- C4 (amended): whenever the x-axis series parses, the locator
installed on the x axis is the IndexLocator with fixed stride
N // 5 - 1 and offset 0; only for long series (at least 50 points)
does this select approximately five (exactly six) index positions;
for shorter series the count differs. -/
theorem c4_amended_tick_stride :
    ∀ (g : GraphDict) (xs ys : List PyVal) (vals : List DateTime)
      (dp : DateParser) (ws : List String),
      g.xaxis = some xs → g.yaxis = some ys →
      parseXAxis DateParser.new xs = .ok (vals, dp, ws) →
      ∃ fig, generateGraph g = .ok fig
        ∧ fig.xlocator = Locator.indexLocator ((xs.length : Int) / 5 - 1) 0
        ∧ (50 ≤ xs.length →
            indexTickCount xs.length ((xs.length : Int) / 5 - 1) = 6) := by
  intro g xs ys vals dp ws hx hy hp
  obtain ⟨gx, gy, gxl, gyl, gt⟩ := g
  simp only at hx hy
  subst hx
  subst hy
  have hlen : vals.length = xs.length :=
    parseXAxis_length xs DateParser.new vals dp ws hp
  refine ⟨_, generateGraph_parse_ok xs ys gxl gyl gt vals dp ws hp, ?_, ?_⟩
  · simp [List.length_map, hlen]
  · intro h50
    exact indexTickCount_six xs.length h50

/-- Counterexample for C4 as stated: a ten-point series gets stride
10 // 5 - 1 = 1, which selects all ten index positions, not
approximately five; the tick count is not independent of the series
length. -/
theorem c4_counterexample :
    (generateGraph ⟨some (List.replicate 10 (PyVal.str ("2024-01-01"))),
        some (List.replicate 10 (PyVal.num 0)), none, none, none⟩).map
      Figure.xlocator = Except.ok (Locator.indexLocator 1 0)
    ∧ indexTickCount 10 1 = 10
    ∧ ¬ (3 ≤ indexTickCount 10 1 ∧ indexTickCount 10 1 ≤ 7) :=
  ⟨by rfl, by decide, by decide⟩

/-- Witness for C4 (amended) on a concrete fifty-point series. -/
theorem c4_amended_tick_stride_witness :
    ∃ fig, generateGraph
        ⟨some (List.replicate 50 (PyVal.str ("2024-01-01"))),
          some (List.replicate 50 (PyVal.num 0)), none, none, none⟩
        = .ok fig
      ∧ fig.xlocator = Locator.indexLocator
          (((List.replicate 50 (PyVal.str ("2024-01-01"))).length : Int) / 5
            - 1) 0
      ∧ (50 ≤ (List.replicate 50 (PyVal.str ("2024-01-01"))).length →
          indexTickCount (List.replicate 50 (PyVal.str ("2024-01-01"))).length
            (((List.replicate 50 (PyVal.str ("2024-01-01"))).length : Int) / 5
              - 1) = 6) :=
  c4_amended_tick_stride
    ⟨some (List.replicate 50 (PyVal.str ("2024-01-01"))),
      some (List.replicate 50 (PyVal.num 0)), none, none, none⟩
    (List.replicate 50 (PyVal.str ("2024-01-01")))
    (List.replicate 50 (PyVal.num 0))
    (List.replicate 50 ⟨2024, 1, 1, 0, 0, 0⟩) ⟨true⟩ [("2024-01-01")]
    rfl rfl (by rfl)

/-- Building the formatter from the day numbers of a series recovers
the series: num2date inverts date2num. -/
theorem ofNums_roundtrip (vals : List DateTime) (f : TickFmt) :
    WeekdayDateFormatter.ofNums (vals.map date2num) f = ⟨vals, f⟩ := by
  simp only [WeekdayDateFormatter.ofNums, List.map_map]
  congr 1
  simp only [Function.comp_def, date2num]
  exact List.map_id vals

/-- At an in-range index the formatter call formats the stored date at
that index with the stored format. -/
theorem call_in_range (f : WeekdayDateFormatter) (i : Nat)
    (hi : i < f.dates.length) :
    f.call (i : Int)
      = DateTime.strftime (f.dates.getD i dtDefault) f.fmt := by
  have hcond : ¬ ((f.dates.length : Int) ≤ (i : Int) ∨ (i : Int) < 0) := by
    omega
  unfold WeekdayDateFormatter.call
  rw [dif_neg hcond]
  congr 1
  rw [List.getD_eq_getElem f.dates dtDefault hi]
  simp only [List.get_eq_getElem]
  have htn : ((i : Int)).toNat = i := by omega
  simp only [htn]

/-- C6: for every index inside the parsed series the label function
formats the date at that index, with the hour-and-minute format
exactly when the series kept time-of-day granularity (the parser never
fell back to date-only mode) and the plain month/day format
otherwise. -/
theorem c6_label_format :
    ∀ (g : GraphDict) (xs ys : List PyVal) (vals : List DateTime)
      (dp : DateParser) (ws : List String) (fig : Figure),
      g.xaxis = some xs → g.yaxis = some ys →
      parseXAxis DateParser.new xs = .ok (vals, dp, ws) →
      generateGraph g = .ok fig →
      fig.xformatter
        = some ⟨vals, if dp.dates_only then TickFmt.md else TickFmt.mdHM⟩
      ∧ ∀ i, i < vals.length →
          WeekdayDateFormatter.call
            ⟨vals, if dp.dates_only then TickFmt.md else TickFmt.mdHM⟩
            (i : Int)
          = DateTime.strftime (vals.getD i dtDefault)
              (if dp.dates_only then TickFmt.md else TickFmt.mdHM) := by
  intro g xs ys vals dp ws fig hx hy hp hgg
  obtain ⟨gx, gy, gxl, gyl, gt⟩ := g
  simp only at hx hy
  subst hx
  subst hy
  rw [generateGraph_parse_ok xs ys gxl gyl gt vals dp ws hp] at hgg
  injection hgg with hfig
  subst hfig
  refine ⟨?_, ?_⟩
  · show some (WeekdayDateFormatter.ofNums (vals.map date2num) _) = _
    rw [ofNums_roundtrip]
  · intro i hi
    exact call_in_range
      ⟨vals, if dp.dates_only then TickFmt.md else TickFmt.mdHM⟩ i hi

/-- Witness for C6 on a one-element timestamp series: the mode stays
timestamp, and the label of index zero carries hour and minute. -/
theorem c6_label_format_witness :
    Figure.xformatter
        ⟨[PyVal.num 0], [PyVal.num 7],
          some ⟨[⟨2024, 3, 5, 14, 30, 0⟩], TickFmt.mdHM⟩,
          Locator.indexLocator (-1) 0, Locator.maxNLocator 5,
          "x", "y", "My Graph", true⟩
      = some ⟨[⟨2024, 3, 5, 14, 30, 0⟩],
          if (DateParser.mk false).dates_only then TickFmt.md
          else TickFmt.mdHM⟩
    ∧ ∀ i, i < ([⟨2024, 3, 5, 14, 30, 0⟩] : List DateTime).length →
        WeekdayDateFormatter.call
          ⟨[⟨2024, 3, 5, 14, 30, 0⟩],
            if (DateParser.mk false).dates_only then TickFmt.md
            else TickFmt.mdHM⟩ (i : Int)
        = DateTime.strftime
            (([⟨2024, 3, 5, 14, 30, 0⟩] : List DateTime).getD i dtDefault)
            (if (DateParser.mk false).dates_only then TickFmt.md
              else TickFmt.mdHM) :=
  c6_label_format
    ⟨some [PyVal.str ("2024-03-05 14:30:00")], some [PyVal.num 7],
      none, none, none⟩
    [PyVal.str ("2024-03-05 14:30:00")] [PyVal.num 7]
    [⟨2024, 3, 5, 14, 30, 0⟩] (DateParser.mk false) []
    ⟨[PyVal.num 0], [PyVal.num 7],
      some ⟨[⟨2024, 3, 5, 14, 30, 0⟩], TickFmt.mdHM⟩,
      Locator.indexLocator (-1) 0, Locator.maxNLocator 5,
      "x", "y", "My Graph", true⟩
    rfl rfl (by rfl) (by rfl)

/-- C10 (amended): strptime raises TypeError on a non-string argument
in either parser mode; a TypeError from the x-axis parse is not caught
by the except-ValueError clause, so generate_graph propagates it
instead of producing the fallback plot; in particular this happens
whenever the first xaxis entry is a non-string (and more generally
whenever parsing reaches a non-string entry before any fatal
ValueError). -/
theorem c10_amended_typeerror_uncaught :
    (∀ (dp : DateParser) (n : Int),
        DateParser.parse dp (.num n) = .error .typeError)
    ∧ (∀ (g : GraphDict) (xs ys : List PyVal),
        g.xaxis = some xs → g.yaxis = some ys →
        parseXAxis DateParser.new xs = .error .typeError →
        generateGraph g = .error .typeError)
    ∧ (∀ (g : GraphDict) (n : Int) (rest ys : List PyVal),
        g.xaxis = some (PyVal.num n :: rest) → g.yaxis = some ys →
        generateGraph g = .error .typeError) := by
  have hparse : ∀ (dp : DateParser) (n : Int),
      DateParser.parse dp (.num n) = .error .typeError := by
    intro dp n
    obtain ⟨b⟩ := dp
    cases b <;> rfl
  have hprop : ∀ (g : GraphDict) (xs ys : List PyVal),
      g.xaxis = some xs → g.yaxis = some ys →
      parseXAxis DateParser.new xs = .error .typeError →
      generateGraph g = .error .typeError := by
    intro g xs ys hx hy hp
    obtain ⟨gx, gy, gxl, gyl, gt⟩ := g
    simp only at hx hy
    subst hx
    subst hy
    simp only [generateGraph, hp]
  refine ⟨hparse, hprop, ?_⟩
  intro g n rest ys hx hy
  refine hprop g (PyVal.num n :: rest) ys hx hy ?_
  simp only [parseXAxis, hparse DateParser.new n]

/-- Witness for C10 (amended): a request whose single x value is a
number makes generate_graph raise TypeError. -/
theorem c10_amended_typeerror_uncaught_witness :
    generateGraph ⟨some [PyVal.num 5], some [PyVal.num 1],
        none, none, none⟩ = .error .typeError :=
  c10_amended_typeerror_uncaught.2.2
    ⟨some [PyVal.num 5], some [PyVal.num 1], none, none, none⟩
    5 [] [PyVal.num 1] rfl rfl

/-- Counterexample for C10 as stated: this graph contains a non-string
xaxis entry, yet generate_graph does not raise: the earlier
unparseable string raises the fatal ValueError first, the fallback
path runs, and the non-string entry is never parsed. -/
theorem c10_counterexample :
    generateGraph ⟨some [PyVal.str ("not-a-date"), PyVal.num 5],
        some [PyVal.num 1, PyVal.num 2], none, none, none⟩
      = Except.ok ⟨[PyVal.str ("not-a-date"), PyVal.num 5],
          [PyVal.num 1, PyVal.num 2], none, Locator.maxNLocator 5,
          Locator.maxNLocator 5, "x", "y", "My Graph", false⟩ := by
  rfl

end SimplePlot
